import Mathlib

/-!
Shallow embedding of the NextDNS focus-session override engine from
`src/domains/nextdns/repository.py` (class `NextDnsRepository`), covering:

* domain normalization (`_normalize_domain`),
* the profile cache (`ensure_profile_loaded` / `_fetch_profile`),
* session creation (`create_focus_session`),
* rollback application (`_apply_rollback`),
* the expiry / rollback lifecycle (`_expire_focus_session`,
  `_rollback_focus_session`),
* the state query (`get_filters_state`, focus-session list portion).

Remote NextDNS HTTP calls are modelled by an explicit call datatype
(`RemoteCall`) together with an environment (`RemoteEnv`) that decides, per
call, whether the remote rejects it (an HTTP >= 400 raises in `_request`)
and with which error detail.  A successful mutation acts on the remote
profile state via `applyCall`; a failed call leaves the remote unchanged.
Wall-clock datetimes are modelled as integer seconds (UTC); a duration of
`m` minutes is `60 * m` seconds.
-/

/-- One deny-list entry of the remote profile: `{id (domain), active}`. -/
structure DenyEntry where
  id : String
  active : Bool
deriving DecidableEq

/-- One parental-control category or service entry: `{id, active}`. -/
structure PCEntry where
  id : String
  active : Bool
deriving DecidableEq

/-- The three scalar parental-control flags. -/
structure ScalarFlags where
  safeSearch : Bool
  youtubeRestrictedMode : Bool
  blockBypass : Bool
deriving DecidableEq

/-- The `parentalControl` section of the remote profile. -/
structure ParentalControl where
  flags : ScalarFlags
  categories : List PCEntry
  services : List PCEntry
deriving DecidableEq

/-- The remote filtering profile, restricted to the attributes the focus
engine reads and writes. -/
structure Profile where
  parentalControl : ParentalControl
  denylist : List DenyEntry
deriving DecidableEq

/-- Payload of a `PATCH /parentalControl` request: the three scalar flags
plus optional category/service entry lists (absent key = `none`). -/
structure ParentalPayload where
  safeSearch : Bool
  youtubeRestrictedMode : Bool
  blockBypass : Bool
  categories : Option (List PCEntry)
  services : Option (List PCEntry)
deriving DecidableEq

/-- A remote NextDNS API call issued through `_request` (or the profile
fetch in `_fetch_profile`).  `fetchProfile n` is the `n`-th profile
(re)fetch within one engine operation. -/
inductive RemoteCall where
  | fetchProfile (n : Nat)
  | patchParental (payload : ParentalPayload)
  | patchDeny (domain : String) (active : Bool)
  | postDeny (domain : String) (active : Bool)
  | deleteDeny (domain : String)
deriving DecidableEq

/-- Behaviour of the remote API: which calls fail (HTTP >= 400, which
`_request` turns into a raised exception) and the error detail text for a
failing call. -/
structure RemoteEnv where
  fails : RemoteCall → Bool
  errMsg : RemoteCall → String

/-- Mutation calls, as opposed to read-only profile fetches. -/
def RemoteCall.isMutation : RemoteCall → Bool
  | .fetchProfile _ => false
  | _ => true

/-- The deny-list domain a call addresses, if it is a deny-list call. -/
def RemoteCall.denyDomain : RemoteCall → Option String
  | .patchDeny d _ => some d
  | .postDeny d _ => some d
  | .deleteDeny d => some d
  | _ => none

/-- Apply a payload's category/service entry list to the remote entries:
each listed id has its `active` flag overwritten. -/
def applyEntryUpdates (entries : List PCEntry) (updates : List PCEntry) : List PCEntry :=
  entries.map fun e =>
    match updates.find? (fun u => u.id == e.id) with
    | some u => { e with active := u.active }
    | none => e

/-- Effect of a successful `PATCH /parentalControl` on the remote profile. -/
def applyParentalPayload (pc : ParentalControl) (pl : ParentalPayload) : ParentalControl :=
  { flags := { safeSearch := pl.safeSearch
               youtubeRestrictedMode := pl.youtubeRestrictedMode
               blockBypass := pl.blockBypass }
    categories := match pl.categories with
      | some us => applyEntryUpdates pc.categories us
      | none => pc.categories
    services := match pl.services with
      | some us => applyEntryUpdates pc.services us
      | none => pc.services }

/-- Effect of a successful remote call on the remote profile.  Deny-list
PATCH/DELETE address entries by their exact id; POST appends a new entry. -/
def applyCall (p : Profile) : RemoteCall → Profile
  | .fetchProfile _ => p
  | .patchParental pl => { p with parentalControl := applyParentalPayload p.parentalControl pl }
  | .patchDeny d a =>
      { p with denylist := p.denylist.map fun e => if e.id == d then { e with active := a } else e }
  | .postDeny d a => { p with denylist := p.denylist ++ [⟨d, a⟩] }
  | .deleteDeny d => { p with denylist := p.denylist.filter fun e => !(e.id == d) }

/-- `_normalize_domain`: `domain.strip().lower().rstrip(".")`. -/
def normalizeDomain (s : String) : String :=
  let trimmed := ((s.data.dropWhile Char.isWhitespace).reverse.dropWhile Char.isWhitespace).reverse
  let lowered := trimmed.map Char.toLower
  String.mk ((lowered.reverse.dropWhile (fun c => c == '.')).reverse)

/-- Lexicographic comparison of strings by character code points, the order
Python's `sorted` uses on `str` (structural, hence kernel-evaluable). -/
def charListLe : List Char → List Char → Bool
  | [], _ => true
  | _ :: _, [] => false
  | a :: as, b :: bs => if a == b then charListLe as bs else decide (a < b)

/-- Propositional form of `charListLe` for use with `List.insertionSort`. -/
def strLe (a b : String) : Prop := charListLe a.data b.data = true

instance : DecidableRel strLe :=
  fun a b => inferInstanceAs (Decidable (charListLe a.data b.data = true))

/-- Python's `sorted(set(l))` for strings: distinct elements in ascending
order. -/
def sortedDedup (l : List String) : List String :=
  (l.dedup).insertionSort strLe

/-- The normalized, deduplicated, sorted target-domain list computed at the
top of `create_focus_session`: domains that are empty after normalization
are dropped, the rest are deduplicated and sorted. -/
def normalizeDomains (ds : List String) : List String :=
  sortedDedup (ds.filterMap fun d =>
    let n := normalizeDomain d
    if n = "" then none else some n)

/-- One deny-list item of a rollback plan:
`{"domain": .., "existed": .., "active": ..}` as recorded by
`create_focus_session`. -/
structure DenyRbItem where
  domain : String
  existed : Bool
  active : Bool
deriving DecidableEq

/-- A rollback plan as built by `create_focus_session`: snapshot of the
three scalar flags, the prior `active` value of every requested
category/service id (in requested order), and the deny-list items
accumulated while applying domains. -/
structure RollbackPlan where
  parentalControl : ScalarFlags
  categories : List (String × Bool)
  services : List (String × Bool)
  denylist : List DenyRbItem
deriving DecidableEq

/-- The `PATCH /parentalControl` payload `_apply_rollback` rebuilds from a
plan: the saved scalar flags always, the category/service lists only when
non-empty (mirroring `if categories_rollbacks:` / `if services_rollbacks:`). -/
def rollbackParentalPayload (rb : RollbackPlan) : ParentalPayload :=
  { safeSearch := rb.parentalControl.safeSearch
    youtubeRestrictedMode := rb.parentalControl.youtubeRestrictedMode
    blockBypass := rb.parentalControl.blockBypass
    categories :=
      if rb.categories.isEmpty then none
      else some (rb.categories.map fun ia => ⟨ia.1, ia.2⟩)
    services :=
      if rb.services.isEmpty then none
      else some (rb.services.map fun ia => ⟨ia.1, ia.2⟩) }

/-- The remote call `_apply_rollback` issues for one deny-list item: PATCH
back to the saved `active` value if the domain pre-existed, DELETE it
otherwise. -/
def rollbackDenyCall (item : DenyRbItem) : RemoteCall :=
  if item.existed then .patchDeny item.domain item.active else .deleteDeny item.domain

/-- Result of running `_apply_rollback`: the calls attempted (in order),
the resulting remote profile, and the first raised error, if any. -/
structure RbResult where
  calls : List RemoteCall
  profile : Profile
  error : Option String
deriving DecidableEq

/-- The deny-list loop of `_apply_rollback`.  Each item's call is awaited
in turn; a failing call raises, so the remaining items are not attempted. -/
def applyRollbackDeny (env : RemoteEnv) (p : Profile) :
    List DenyRbItem → List RemoteCall × Profile × Option String
  | [] => ([], p, none)
  | item :: rest =>
    let c := rollbackDenyCall item
    if env.fails c then ([c], p, some (env.errMsg c))
    else
      match applyRollbackDeny env (applyCall p c) rest with
      | (cs, p', err) => (c :: cs, p', err)

/-- `_apply_rollback`: rebuild and send the parental-control patch (the
payload always contains the three scalar flags, so the `if parental_payload:`
guard is always taken for plans built by `create_focus_session`), then walk
the deny-list items in order.  An exception from any call propagates
immediately. -/
def applyRollback (env : RemoteEnv) (p : Profile) (rb : RollbackPlan) : RbResult :=
  let pl := rollbackParentalPayload rb
  if env.fails (.patchParental pl) then
    { calls := [.patchParental pl], profile := p, error := some (env.errMsg (.patchParental pl)) }
  else
    match applyRollbackDeny env (applyCall p (.patchParental pl)) rb.denylist with
    | (cs, p', err) => { calls := .patchParental pl :: cs, profile := p', error := err }

/-- Status of a focus session while present in the session store
(`removed` sessions are deleted from the store instead). -/
inductive SessionStatus where
  | active
  | rolling_back
  | rollback_failed
deriving DecidableEq

/-- The caller input of `create_focus_session` (keyword arguments). -/
structure FocusRequest where
  duration_minutes : Int
  domains : List String
  category_ids : List String
  service_ids : List String
  safe_search : Bool
  youtube_restricted_mode : Bool
  block_bypass : Bool
  reason : Option String
deriving DecidableEq

/-- The `targets` echo stored in the session and returned to the caller. -/
structure SessionTargets where
  domains : List String
  category_ids : List String
  service_ids : List String
  safeSearch : Bool
  youtubeRestrictedMode : Bool
  blockBypass : Bool
deriving DecidableEq

/-- A session record as stored in `_focus_sessions`. -/
structure Session where
  id : String
  status : SessionStatus
  created_at : Int
  expires_at : Int
  duration_minutes : Int
  reason : Option String
  targets : SessionTargets
  rollback : RollbackPlan
  error : Option String
deriving DecidableEq

/-- The snapshot dictionary `create_focus_session` returns on success. -/
structure SessionSnapshot where
  session_id : String
  status : SessionStatus
  created_at : Int
  expires_at : Int
  duration_minutes : Int
  targets : SessionTargets
deriving DecidableEq

/-- Errors raised by `create_focus_session`: `ValueError` for validation
failures, `RuntimeError` (wrapping the original exception text) for remote
failures. -/
inductive CreateError where
  | validation (msg : String)
  | remote (msg : String)
deriving DecidableEq

instance {ε α : Type} [DecidableEq ε] [DecidableEq α] : DecidableEq (Except ε α)
  | .error a, .error b =>
    if h : a = b then .isTrue (by rw [h])
    else .isFalse (by intro hc; cases hc; exact h rfl)
  | .error _, .ok _ => .isFalse (by intro h; cases h)
  | .ok _, .error _ => .isFalse (by intro h; cases h)
  | .ok a, .ok b =>
    if h : a = b then .isTrue (by rw [h])
    else .isFalse (by intro hc; cases hc; exact h rfl)

/-- Observable outcome of one `create_focus_session` call: the returned
snapshot or raised error, every remote call attempted (in order), the
resulting remote profile, the session registered in the store (if any),
and the rollback plan handed to `_apply_rollback` (if the error path ran). -/
structure CreateResult where
  outcome : Except CreateError SessionSnapshot
  calls : List RemoteCall
  remote : Profile
  registered : Option Session
  rollbackInvoked : Option RollbackPlan
deriving DecidableEq

/-- Dictionary lookup mirroring
`{entry["id"]: bool(entry["active"]) for entry in entries if entry.get("id")}`:
falsy (empty) ids are skipped and, as in a Python dict comprehension, a
later entry with the same id wins. -/
def pcLookup (entries : List PCEntry) (i : String) : Option Bool :=
  ((entries.filter fun e => !(e.id == "") && e.id == i).getLast?).map (·.active)

/-- Lookup in the `current_denylist` dict of `create_focus_session`: keys
are the *normalized* entry ids (entries with falsy raw id skipped), later
entries overriding earlier ones. -/
def denyLookup (entries : List DenyEntry) (domain : String) : Option DenyEntry :=
  (entries.filter fun e => !(e.id == "") && normalizeDomain e.id == domain).getLast?

/-- `sorted(set(category_ids or []))` of the request. -/
def requestedCategories (req : FocusRequest) : List String := sortedDedup req.category_ids

/-- `sorted(set(service_ids or []))` of the request. -/
def requestedServices (req : FocusRequest) : List String := sortedDedup req.service_ids

/-- Requested category ids absent from the current profile's category list. -/
def unknownCategories (p : Profile) (req : FocusRequest) : List String :=
  (requestedCategories req).filter fun i => (pcLookup p.parentalControl.categories i).isNone

/-- Requested service ids absent from the current profile's service list. -/
def unknownServices (p : Profile) (req : FocusRequest) : List String :=
  (requestedServices req).filter fun i => (pcLookup p.parentalControl.services i).isNone

/-- The `parental_payload` step 6 sends: the three requested scalar flags,
plus `active: true` entries for the requested categories/services when
non-empty. -/
def createParentalPayload (req : FocusRequest) : ParentalPayload :=
  { safeSearch := req.safe_search
    youtubeRestrictedMode := req.youtube_restricted_mode
    blockBypass := req.block_bypass
    categories :=
      if (requestedCategories req).isEmpty then none
      else some ((requestedCategories req).map fun i => ⟨i, true⟩)
    services :=
      if (requestedServices req).isEmpty then none
      else some ((requestedServices req).map fun i => ⟨i, true⟩) }

/-- The rollback plan captured before any mutation (its deny-list part is
still empty). -/
def initialRollback (p : Profile) (req : FocusRequest) : RollbackPlan :=
  { parentalControl := p.parentalControl.flags
    categories := (requestedCategories req).map fun i =>
      (i, (pcLookup p.parentalControl.categories i).getD false)
    services := (requestedServices req).map fun i =>
      (i, (pcLookup p.parentalControl.services i).getD false)
    denylist := [] }

/-- The per-domain loop of step 8 of `create_focus_session`.  Lookups go
against the fixed deny-list snapshot taken after step 7; the rollback item
is appended *before* the remote call is awaited, so a failing call leaves
its own item in the accumulated plan; a raised exception stops the loop. -/
def createDenyLoop (env : RemoteEnv) (snapshot : List DenyEntry) (p : Profile) :
    List String → List DenyRbItem × List RemoteCall × Profile × Option String
  | [] => ([], [], p, none)
  | d :: rest =>
    match denyLookup snapshot d with
    | some e =>
      if e.active then
        match createDenyLoop env snapshot p rest with
        | (items, cs, p', err) => (⟨d, true, e.active⟩ :: items, cs, p', err)
      else
        let c : RemoteCall := .patchDeny d true
        if env.fails c then ([⟨d, true, e.active⟩], [c], p, some (env.errMsg c))
        else
          match createDenyLoop env snapshot (applyCall p c) rest with
          | (items, cs, p', err) => (⟨d, true, e.active⟩ :: items, c :: cs, p', err)
    | none =>
      let c : RemoteCall := .postDeny d true
      if env.fails c then ([⟨d, false, false⟩], [c], p, some (env.errMsg c))
      else
        match createDenyLoop env snapshot (applyCall p c) rest with
        | (items, cs, p', err) => (⟨d, false, false⟩ :: items, c :: cs, p', err)

/-- The `except` branch of `create_focus_session`: `_apply_rollback` is
attempted on the accumulated plan, its own failure is swallowed
(`except Exception: pass`), and a `RuntimeError` wrapping only the original
exception text is raised; no session is registered. -/
def createFail (env : RemoteEnv) (p : Profile) (calls : List RemoteCall)
    (rb : RollbackPlan) (origErr : String) : CreateResult :=
  let r := applyRollback env p rb
  { outcome := .error (.remote ("Failed to create focus session: " ++ origErr))
    calls := calls ++ r.calls
    remote := r.profile
    registered := none
    rollbackInvoked := some rb }

/-- The targets echo built on success. -/
def sessionTargets (req : FocusRequest) : SessionTargets :=
  { domains := normalizeDomains req.domains
    category_ids := requestedCategories req
    service_ids := requestedServices req
    safeSearch := req.safe_search
    youtubeRestrictedMode := req.youtube_restricted_mode
    blockBypass := req.block_bypass }

/-- Steps 6-10 of `create_focus_session` (everything after validation):
send the parental patch, re-fetch the profile, walk the target domains,
and on success register the session and return its snapshot.  `now` is the
`datetime.now(timezone.utc)` sample taken after the try block succeeds
(so both timestamps postdate every remote mutation), `sid` the fresh
`uuid4().hex`. -/
def createApply (env : RemoteEnv) (req : FocusRequest) (p : Profile)
    (now : Int) (sid : String) : CreateResult :=
  let pl := createParentalPayload req
  let rb0 := initialRollback p req
  if env.fails (.patchParental pl) then
    createFail env p [.fetchProfile 0, .patchParental pl] rb0 (env.errMsg (.patchParental pl))
  else
    let p1 := applyCall p (.patchParental pl)
    if env.fails (.fetchProfile 1) then
      createFail env p1 [.fetchProfile 0, .patchParental pl, .fetchProfile 1] rb0
        (env.errMsg (.fetchProfile 1))
    else
      match createDenyLoop env p1.denylist p1 (normalizeDomains req.domains) with
      | (items, dcalls, p2, some e) =>
        createFail env p2 ([.fetchProfile 0, .patchParental pl, .fetchProfile 1] ++ dcalls)
          { rb0 with denylist := items } e
      | (items, dcalls, p2, none) =>
        let session : Session :=
          { id := sid
            status := .active
            created_at := now
            expires_at := now + 60 * req.duration_minutes
            duration_minutes := req.duration_minutes
            reason := req.reason
            targets := sessionTargets req
            rollback := { rb0 with denylist := items }
            error := none }
        { outcome := .ok
            { session_id := sid
              status := .active
              created_at := now
              expires_at := now + 60 * req.duration_minutes
              duration_minutes := req.duration_minutes
              targets := sessionTargets req }
          calls := [.fetchProfile 0, .patchParental pl, .fetchProfile 1] ++ dcalls
          remote := p2
          registered := some session
          rollbackInvoked := none }

/-- `create_focus_session`: duration bounds check, domain normalization,
forced profile refresh (a failing refresh raises before the try block, so
no rollback is attempted), unknown-id validation, then `createApply`.
`p` is the remote profile the forced refresh would return. -/
def createFocusSession (env : RemoteEnv) (req : FocusRequest) (p : Profile)
    (now : Int) (sid : String) : CreateResult :=
  if req.duration_minutes < 5 ∨ req.duration_minutes > 1440 then
    { outcome := .error (.validation "duration_minutes must be between 5 and 1440")
      calls := [], remote := p, registered := none, rollbackInvoked := none }
  else if env.fails (.fetchProfile 0) then
    { outcome := .error (.remote (env.errMsg (.fetchProfile 0)))
      calls := [.fetchProfile 0], remote := p, registered := none, rollbackInvoked := none }
  else if unknownCategories p req ≠ [] then
    { outcome := .error (.validation
        ("Unknown categories: " ++ String.intercalate ", " (unknownCategories p req)))
      calls := [.fetchProfile 0], remote := p, registered := none, rollbackInvoked := none }
  else if unknownServices p req ≠ [] then
    { outcome := .error (.validation
        ("Unknown services: " ++ String.intercalate ", " (unknownServices p req)))
      calls := [.fetchProfile 0], remote := p, registered := none, rollbackInvoked := none }
  else
    createApply env req p now sid

/-- The in-memory session store: `_focus_sessions` (insertion-ordered
mapping of session id to record) and the ids with a pending expiry task
(`_focus_tasks`).  All accesses in the source happen under `_focus_lock`;
the embedding makes each locked section one atomic step. -/
structure FocusStore where
  sessions : List (String × Session)
  tasks : List String
deriving DecidableEq

/-- `self._focus_sessions.get(session_id)`. -/
def storeLookup (st : FocusStore) (sid : String) : Option Session :=
  (st.sessions.find? fun kv => kv.1 == sid).map (·.2)

/-- In-place mutation of the record stored under a key (first occurrence,
which is the only one for dict-shaped association lists). -/
def updateFirst : List (String × Session) → String → (Session → Session) →
    List (String × Session)
  | [], _, _ => []
  | kv :: rest, sid, f =>
    if kv.1 == sid then (kv.1, f kv.2) :: rest else kv :: updateFirst rest sid f

/-- Observable outcome of `_rollback_focus_session` /
`_expire_focus_session`: the store afterwards, the remote calls attempted
(in order, the trailing forced profile refresh included), and the remote
profile afterwards. -/
structure LifecycleResult where
  store : FocusStore
  calls : List RemoteCall
  remote : Profile
deriving DecidableEq

/-- `_rollback_focus_session`: under the lock, re-check that the session
exists and is still `active` (otherwise return without any remote call);
mark it `rolling_back`; run `_apply_rollback`; on failure mark the session
`rollback_failed` with the error and pop its task; on success remove the
session and its task and force-refresh the profile. -/
def rollbackFocusSession (env : RemoteEnv) (st : FocusStore) (p : Profile)
    (sid : String) : LifecycleResult :=
  match storeLookup st sid with
  | none => { store := st, calls := [], remote := p }
  | some s =>
    if s.status ≠ SessionStatus.active then { store := st, calls := [], remote := p }
    else
      let st1 : FocusStore :=
        { st with sessions := updateFirst st.sessions sid fun t => { t with status := .rolling_back } }
      let r := applyRollback env p s.rollback
      match r.error with
      | some e =>
        { store :=
            { sessions := updateFirst st1.sessions sid fun t =>
                { t with status := .rollback_failed, error := some e }
              tasks := st1.tasks.erase sid }
          calls := r.calls
          remote := r.profile }
      | none =>
        { store :=
            { sessions := st1.sessions.eraseP fun kv => kv.1 == sid
              tasks := st1.tasks.erase sid }
          calls := r.calls ++ [.fetchProfile 0]
          remote := r.profile }

/-- `_expire_focus_session` at its wake-up time: look the session up under
the lock (a missing session returns immediately), then — after the sleep —
delegate to `_rollback_focus_session`. -/
def expireFocusSession (env : RemoteEnv) (st : FocusStore) (p : Profile)
    (sid : String) : LifecycleResult :=
  match storeLookup st sid with
  | none => { store := st, calls := [], remote := p }
  | some _ => rollbackFocusSession env st p sid

/-- Remote responses seen by `_fetch_profile`: the `/profiles` listing
(its `data` reduced to the profile ids) and the per-profile GET. -/
structure FetchEnv where
  profilesResult : Except String (List String)
  profileResult : String → Except String Profile

/-- The profile-cache fields of `NextDnsRepository`. -/
structure CacheState where
  profile_id : Option String
  profile_url : Option String
  profile : Option Profile
deriving DecidableEq

/-- State and raised-or-returned result of one cache operation. -/
structure FetchOutcome where
  state : CacheState
  result : Except String Profile
deriving DecidableEq

/-- URL built by `_fetch_profile` for the selected profile. -/
def profileUrlFor (pid : String) : String := "https://api.nextdns.io/profiles/" ++ pid

/-- `_fetch_profile`: list the profiles (a failing GET raises with the
cache untouched), fail if the listing is empty, record the first profile's
id and URL, GET that profile and — only on success — replace the cached
profile. -/
def fetchProfile (env : FetchEnv) (st : CacheState) : FetchOutcome :=
  match env.profilesResult with
  | .error e => { state := st, result := .error e }
  | .ok [] => { state := st, result := .error "No NextDNS profiles returned" }
  | .ok (pid :: _) =>
    let st1 : CacheState :=
      { st with profile_id := some pid, profile_url := some (profileUrlFor pid) }
    match env.profileResult pid with
    | .error e => { state := st1, result := .error e }
    | .ok doc => { state := { st1 with profile := some doc }, result := .ok doc }

/-- `ensure_profile_loaded`: under the profile lock, fetch when forced or
when no cached profile/URL exists, otherwise return the cached profile.
The second component counts the fetch attempts made (0 or 1; the source
has no retry loop). -/
def ensureProfileLoaded (env : FetchEnv) (st : CacheState) (forceRefresh : Bool) :
    FetchOutcome × Nat :=
  match st.profile, st.profile_url with
  | some cached, some _ =>
    if forceRefresh then (fetchProfile env st, 1)
    else ({ state := st, result := .ok cached }, 0)
  | _, _ => (fetchProfile env st, 1)

/-- One element of the `focusSessions` list returned by
`get_filters_state`. -/
structure ActiveSessionView where
  session_id : String
  expires_at : Int
  duration_minutes : Int
  remaining_seconds : Int
  targets : SessionTargets
deriving DecidableEq

/-- The annotation `get_filters_state` builds for one active session:
`remaining_seconds = max(0, (expires_at - now).total_seconds())`. -/
def sessionView (now : Int) (s : Session) : ActiveSessionView :=
  { session_id := s.id
    expires_at := s.expires_at
    duration_minutes := s.duration_minutes
    remaining_seconds := max 0 (s.expires_at - now)
    targets := s.targets }

/-- Order on views by expiry.  The source sorts by the `expires_at`
isoformat string; for timezone-aware UTC datetimes that string order
coincides with chronological order, modelled here directly on the
integer timestamp. -/
def viewLe (a b : ActiveSessionView) : Prop := a.expires_at ≤ b.expires_at

instance : DecidableRel viewLe :=
  fun a b => inferInstanceAs (Decidable (a.expires_at ≤ b.expires_at))

instance : IsTotal ActiveSessionView viewLe := ⟨fun a b => Int.le_total a.expires_at b.expires_at⟩

instance : IsTrans ActiveSessionView viewLe := ⟨fun _ _ _ => Int.le_trans⟩

/-- The `focusSessions` field of `get_filters_state`: under the session
lock, every stored session whose status is `active` is annotated with its
remaining time, and the resulting list is sorted by ascending expiry.
`sessions` is `self._focus_sessions.values()` in insertion order. -/
def focusSessionsView (sessions : List Session) (now : Int) : List ActiveSessionView :=
  ((sessions.filter fun s => s.status == SessionStatus.active).map (sessionView now)).insertionSort
    viewLe

/-- The rollback item step 8 records for one domain, read off the branch
structure of the loop body (lookup against the fixed deny-list snapshot). -/
def denyRecord (snapshot : List DenyEntry) (d : String) : DenyRbItem :=
  match denyLookup snapshot d with
  | some e => ⟨d, true, e.active⟩
  | none => ⟨d, false, false⟩

/-- The remote call step 8 issues for one domain: none when the domain
pre-exists and is already active, a PATCH to active when it pre-exists
inactive, a POST with `active = true` when it does not pre-exist. -/
def denyCallFor (snapshot : List DenyEntry) (d : String) : Option RemoteCall :=
  match denyLookup snapshot d with
  | some e => if e.active then none else some (.patchDeny d true)
  | none => some (.postDeny d true)

/-- Fold a sequence of successful remote calls over the remote profile. -/
def applyCalls (p : Profile) (cs : List RemoteCall) : Profile := cs.foldl applyCall p

/-- A remote environment in which every call succeeds. -/
def envAllOk : RemoteEnv := ⟨fun _ => false, fun _ => ""⟩

/-- The round-trip request of the spec: a session targeting the single
domain `"Example.com."`, no categories or services. -/
def roundTripRequest : FocusRequest :=
  { duration_minutes := 30
    domains := ["Example.com."]
    category_ids := []
    service_ids := []
    safe_search := true
    youtube_restricted_mode := true
    block_bypass := true
    reason := none }

/-- Witness profile for the round-trip theorem: `example.com` pre-exists
inactive alongside an unrelated entry. -/
def c3Profile : Profile :=
  { parentalControl := { flags := ⟨false, false, false⟩, categories := [], services := [] }
    denylist := [⟨"example.com", false⟩, ⟨"other.com", true⟩] }

/-- Request used in the C1 scenario: one fresh domain, no categories. -/
def c1Req : FocusRequest :=
  { duration_minutes := 30
    domains := ["foo.com"]
    category_ids := []
    service_ids := []
    safe_search := true
    youtube_restricted_mode := true
    block_bypass := true
    reason := none }

/-- Profile used in the C1 scenario: empty deny-list, all flags off. -/
def c1Prof : Profile :=
  { parentalControl := { flags := ⟨false, false, false⟩, categories := [], services := [] }
    denylist := [] }

/-- The rollback plan `create_focus_session` has accumulated when the
POST for `foo.com` fails in the C1 scenario. -/
def c1Plan : RollbackPlan :=
  { parentalControl := ⟨false, false, false⟩
    categories := []
    services := []
    denylist := [⟨"foo.com", false, false⟩] }

/-- Environment for C1 in which only the step-8 POST for `foo.com` fails;
the rollback calls all succeed. -/
def c1Env1 : RemoteEnv :=
  { fails := fun c => c == .postDeny "foo.com" true
    errMsg := fun _ => "postfail" }

/-- Same as `c1Env1` except the parental-control PATCH that
`_apply_rollback` rebuilds from the accumulated plan also fails, i.e. the
rollback attempt itself fails. -/
def c1Env2 : RemoteEnv :=
  { fails := fun c =>
      c == .postDeny "foo.com" true ||
      c == .patchParental (rollbackParentalPayload c1Plan)
    errMsg := fun c => if c == .postDeny "foo.com" true then "postfail" else "rollback-boom" }

/-- Rollback plan with two deny-list items used against C2: restoring
`a.com` requires a DELETE that the remote rejects, `b.com` a DELETE that
would succeed. -/
def c2Plan : RollbackPlan :=
  { parentalControl := ⟨false, false, false⟩
    categories := []
    services := []
    denylist := [⟨"a.com", false, false⟩, ⟨"b.com", false, false⟩] }

/-- Environment for the C2 counterexample: only `DELETE /denylist/a.com`
fails. -/
def c2Env : RemoteEnv :=
  { fails := fun c => c == .deleteDeny "a.com"
    errMsg := fun _ => "deletefail" }

/-- Remote profile for the C2 counterexample: both session-created
entries are present. -/
def c2Prof : Profile :=
  { parentalControl := { flags := ⟨true, true, true⟩, categories := [], services := [] }
    denylist := [⟨"a.com", true⟩, ⟨"b.com", true⟩] }

/-- A session with a trivial rollback plan, used as C4 witness data. -/
def c4Session : Session :=
  { id := "s1"
    status := .active
    created_at := 0
    expires_at := 1800
    duration_minutes := 30
    reason := none
    targets := ⟨[], [], [], true, true, true⟩
    rollback := { parentalControl := ⟨false, false, false⟩, categories := [], services := [], denylist := [] }
    error := none }

/-- Store holding exactly the C4 witness session with its expiry task. -/
def c4Store : FocusStore := { sessions := [("s1", c4Session)], tasks := ["s1"] }

/-- Profile with one category `ads` (inactive), used by the C5 witness. -/
def c5Prof : Profile :=
  { parentalControl := { flags := ⟨false, false, false⟩, categories := [⟨"ads", false⟩], services := [] }
    denylist := [] }

/-- Request naming the unknown category id `nope`, used by the C5 witness. -/
def c5Req : FocusRequest :=
  { duration_minutes := 30
    domains := []
    category_ids := ["nope"]
    service_ids := []
    safe_search := true
    youtube_restricted_mode := true
    block_bypass := true
    reason := none }

/-- Request whose only domain normalizes to the empty string, used
against C8. -/
def c8Req : FocusRequest :=
  { duration_minutes := 30
    domains := ["."]
    category_ids := []
    service_ids := []
    safe_search := true
    youtube_restricted_mode := true
    block_bypass := true
    reason := none }

/-- Profile used by the C8 counterexample. -/
def c8Prof : Profile :=
  { parentalControl := { flags := ⟨false, false, false⟩, categories := [], services := [] }
    denylist := [] }

/-- Cache state holding a previously fetched profile, used by the C9
witness. -/
def c9State : CacheState :=
  { profile_id := some "p1"
    profile_url := some (profileUrlFor "p1")
    profile := some c8Prof }

/-- Fetch environment whose `/profiles` listing fails, used by the C9
witness. -/
def c9Env : FetchEnv :=
  { profilesResult := .error "profiles endpoint down"
    profileResult := fun _ => .error "unused" }

/-- Profile with category `ads` inactive and `bar.com` inactive in the
deny-list; used by the C6 and C10 witnesses. -/
def c6Prof : Profile :=
  { parentalControl := { flags := ⟨false, false, false⟩, categories := [⟨"ads", false⟩], services := [] }
    denylist := [⟨"bar.com", false⟩, ⟨"baz.com", true⟩] }

/-- Request targeting `bar.com`, `baz.com` and a fresh domain plus the
`ads` category; used by the C6 and C10 witnesses. -/
def c6Req : FocusRequest :=
  { duration_minutes := 30
    domains := ["bar.COM", "Baz.com.", "new.com"]
    category_ids := ["ads"]
    service_ids := []
    safe_search := true
    youtube_restricted_mode := true
    block_bypass := true
    reason := none }

/-- The session registered in the C6/C10 witness scenario. -/
def c6Session : Session :=
  { id := "sid"
    status := .active
    created_at := 100
    expires_at := 1900
    duration_minutes := 30
    reason := none
    targets := sessionTargets c6Req
    rollback :=
      { parentalControl := ⟨false, false, false⟩
        categories := [("ads", false)]
        services := []
        denylist := [⟨"bar.com", true, false⟩, ⟨"baz.com", true, true⟩, ⟨"new.com", false, false⟩] }
    error := none }

/-- The snapshot returned in the C10 witness scenario. -/
def c10Snap : SessionSnapshot :=
  { session_id := "sid"
    status := .active
    created_at := 100
    expires_at := 1900
    duration_minutes := 30
    targets := sessionTargets c6Req }

/-! ### Helper lemmas -/

theorem applyCall_parental_denylist (p : Profile) (pl : ParentalPayload) :
    (applyCall p (.patchParental pl)).denylist = p.denylist := rfl

theorem patchList_nochange (l : List DenyEntry) (d : String) (a : Bool)
    (h : ∀ x ∈ l, x.id = d → x.active = a) :
    (l.map fun e => if e.id == d then { e with active := a } else e) = l := by
  induction l with
  | nil => rfl
  | cons x xs ih =>
    have hxs := ih fun y hy hyd => h y (List.mem_cons_of_mem x hy) hyd
    simp only [List.map_cons, hxs]
    cases hB : x.id == d with
    | true =>
      have hid : x.id = d := by simpa using hB
      have hact : x.active = a := h x (List.mem_cons_self x xs) hid
      simp [hB, ← hact]
    | false => simp [hB]

theorem patchList_patchList (l : List DenyEntry) (d : String) (a b : Bool) :
    ((l.map fun e => if e.id == d then { e with active := a } else e).map
        fun e => if e.id == d then { e with active := b } else e) =
      l.map fun e => if e.id == d then { e with active := b } else e := by
  induction l with
  | nil => rfl
  | cons x xs ih =>
    simp only [List.map_cons, ih]
    cases hB : x.id == d with
    | true => simp [hB]
    | false => simp [hB]

theorem filter_append_single_ne (l : List DenyEntry) (d : String) (a : Bool)
    (h : ∀ x ∈ l, ¬ x.id = d) :
    ((l ++ [DenyEntry.mk d a]).filter fun e => !(e.id == d)) = l := by
  rw [List.filter_append]
  have h1 : (l.filter fun e => !(e.id == d)) = l := by
    rw [List.filter_eq_self]
    intro x hx
    simp [h x hx]
  have h2 : (([DenyEntry.mk d a] : List DenyEntry).filter fun e => !(e.id == d)) = [] := by
    simp
  rw [h1, h2, List.append_nil]

theorem filterMap_filter_of_none {α β : Type} (f : α → Option β) (q : α → Bool)
    (h : ∀ x, q x = false → f x = none) (l : List α) :
    (l.filter q).filterMap f = l.filterMap f := by
  induction l with
  | nil => rfl
  | cons x xs ih =>
    cases hq : q x with
    | true => simp [List.filter_cons, hq, List.filterMap_cons, ih]
    | false => simp [List.filter_cons, hq, List.filterMap_cons, h x hq, ih]

theorem mem_sortedDedup {a : String} {l : List String} : a ∈ sortedDedup l ↔ a ∈ l := by
  unfold sortedDedup
  rw [List.mem_insertionSort, List.mem_dedup]

theorem nodup_sortedDedup (l : List String) : (sortedDedup l).Nodup :=
  ((List.perm_insertionSort strLe l.dedup).symm).nodup (List.nodup_dedup l)

theorem nodup_normalizeDomains (ds : List String) : (normalizeDomains ds).Nodup :=
  nodup_sortedDedup _

theorem empty_not_mem_normalizeDomains (ds : List String) : "" ∉ normalizeDomains ds := by
  intro hmem
  rw [normalizeDomains, mem_sortedDedup] at hmem
  rcases List.mem_filterMap.mp hmem with ⟨d, _, hf⟩
  by_cases hn : normalizeDomain d = ""
  · simp [hn] at hf
  · simp [hn] at hf

theorem find?_key_none {l : List (String × Session)} {sid : String}
    (h : sid ∉ l.map Prod.fst) : (l.find? fun kv => kv.1 == sid) = none := by
  rw [List.find?_eq_none]
  intro kv hkv
  simp only [beq_iff_eq]
  intro hEq
  exact h (hEq ▸ List.mem_map_of_mem Prod.fst hkv)

theorem map_fst_updateFirst (l : List (String × Session)) (sid : String) (f : Session → Session) :
    (updateFirst l sid f).map Prod.fst = l.map Prod.fst := by
  induction l with
  | nil => rfl
  | cons kv rest ih =>
    cases hB : kv.1 == sid with
    | true => simp [updateFirst, hB]
    | false => simp [updateFirst, hB, ih]

theorem find?_updateFirst (l : List (String × Session)) (sid : String) (f : Session → Session) :
    ((updateFirst l sid f).find? fun kv => kv.1 == sid) =
      (l.find? fun kv => kv.1 == sid).map fun kv => (kv.1, f kv.2) := by
  induction l with
  | nil => rfl
  | cons kv rest ih =>
    cases hB : kv.1 == sid with
    | true => simp [updateFirst, hB, List.find?_cons]
    | false => simp [updateFirst, hB, List.find?_cons, ih]

theorem find?_eraseP_key (l : List (String × Session)) (sid : String)
    (hnd : (l.map Prod.fst).Nodup) :
    ((l.eraseP fun kv => kv.1 == sid).find? fun kv => kv.1 == sid) = none := by
  induction l with
  | nil => rfl
  | cons kv rest ih =>
    rw [List.map_cons, List.nodup_cons] at hnd
    cases hB : kv.1 == sid with
    | true =>
      simp only [List.eraseP_cons, hB, cond_true]
      apply find?_key_none
      have hEq : kv.1 = sid := by simpa using hB
      exact hEq ▸ hnd.1
    | false =>
      simp only [List.eraseP_cons, hB, cond_false]
      rw [List.find?_cons_of_neg _ (by simp [hB])]
      exact ih hnd.2

theorem applyRollbackDeny_ok (env : RemoteEnv) (items : List DenyRbItem)
    (hok : ∀ i ∈ items, env.fails (rollbackDenyCall i) = false) :
    ∀ p : Profile, applyRollbackDeny env p items =
      (items.map rollbackDenyCall, applyCalls p (items.map rollbackDenyCall), none) := by
  induction items with
  | nil => intro p; rfl
  | cons i rest ih =>
    intro p
    have hi : env.fails (rollbackDenyCall i) = false := hok i (List.mem_cons_self i rest)
    have hrest := ih fun j hj => hok j (List.mem_cons_of_mem i hj)
    simp only [applyRollbackDeny, hi, Bool.false_eq_true, if_false,
      hrest (applyCall p (rollbackDenyCall i)), List.map_cons]
    rfl

theorem applyRollbackDeny_fail (env : RemoteEnv) (pre : List DenyRbItem) (item : DenyRbItem)
    (post : List DenyRbItem)
    (hpre : ∀ i ∈ pre, env.fails (rollbackDenyCall i) = false)
    (hfail : env.fails (rollbackDenyCall item) = true) :
    ∀ p : Profile, applyRollbackDeny env p (pre ++ item :: post) =
      (pre.map rollbackDenyCall ++ [rollbackDenyCall item],
       applyCalls p (pre.map rollbackDenyCall),
       some (env.errMsg (rollbackDenyCall item))) := by
  induction pre with
  | nil =>
    intro p
    simp only [List.nil_append, applyRollbackDeny, hfail, if_true, List.map_nil]
    rfl
  | cons i rest ih =>
    intro p
    have hi : env.fails (rollbackDenyCall i) = false := hpre i (List.mem_cons_self i rest)
    have hrest := ih fun j hj => hpre j (List.mem_cons_of_mem i hj)
    simp only [List.cons_append, applyRollbackDeny, hi, Bool.false_eq_true, if_false,
      List.append_eq, hrest (applyCall p (rollbackDenyCall i)), List.map_cons]
    rfl

theorem createDenyLoop_ok (env : RemoteEnv) (snapshot : List DenyEntry)
    (hok : ∀ c, env.fails c = false) (ds : List String) :
    ∀ p : Profile, createDenyLoop env snapshot p ds =
      (ds.map (denyRecord snapshot), ds.filterMap (denyCallFor snapshot),
       applyCalls p (ds.filterMap (denyCallFor snapshot)), none) := by
  induction ds with
  | nil => intro p; rfl
  | cons d rest ih =>
    intro p
    cases hl : denyLookup snapshot d with
    | some e =>
      cases ha : e.active with
      | true =>
        simp only [createDenyLoop, hl, ha, if_true, ih p, List.map_cons, List.filterMap_cons,
          denyRecord, denyCallFor]
      | false =>
        simp only [createDenyLoop, hl, ha, Bool.false_eq_true, if_false, hok, ih, List.map_cons,
          List.filterMap_cons, denyRecord, denyCallFor]
        simp [hl, ha, applyCalls]
    | none =>
      simp only [createDenyLoop, hl, hok, Bool.false_eq_true, if_false, ih, List.map_cons,
        List.filterMap_cons, denyRecord, denyCallFor]
      simp [hl, applyCalls]

theorem createFocusSession_validated (env : RemoteEnv) (req : FocusRequest) (p : Profile)
    (now : Int) (sid : String)
    (hd : ¬(req.duration_minutes < 5 ∨ req.duration_minutes > 1440))
    (hf0 : env.fails (.fetchProfile 0) = false)
    (hc : unknownCategories p req = [])
    (hs : unknownServices p req = []) :
    createFocusSession env req p now sid = createApply env req p now sid := by
  unfold createFocusSession
  rw [if_neg hd, if_neg (by simp [hf0]), if_neg (by simp [hc]), if_neg (by simp [hs])]

theorem createFocusSession_ok (env : RemoteEnv) (req : FocusRequest) (p : Profile)
    (now : Int) (sid : String)
    (hok : ∀ c, env.fails c = false)
    (hd : ¬(req.duration_minutes < 5 ∨ req.duration_minutes > 1440))
    (hc : unknownCategories p req = [])
    (hs : unknownServices p req = []) :
    createFocusSession env req p now sid =
      { outcome := .ok
          { session_id := sid
            status := .active
            created_at := now
            expires_at := now + 60 * req.duration_minutes
            duration_minutes := req.duration_minutes
            targets := sessionTargets req }
        calls := [.fetchProfile 0, .patchParental (createParentalPayload req), .fetchProfile 1] ++
          (normalizeDomains req.domains).filterMap (denyCallFor p.denylist)
        remote := applyCalls (applyCall p (.patchParental (createParentalPayload req)))
          ((normalizeDomains req.domains).filterMap (denyCallFor p.denylist))
        registered := some
          { id := sid
            status := .active
            created_at := now
            expires_at := now + 60 * req.duration_minutes
            duration_minutes := req.duration_minutes
            reason := req.reason
            targets := sessionTargets req
            rollback := { initialRollback p req with
              denylist := (normalizeDomains req.domains).map (denyRecord p.denylist) }
            error := none }
        rollbackInvoked := none } := by
  rw [createFocusSession_validated env req p now sid hd (hok _) hc hs]
  unfold createApply
  rw [if_neg (by simp [hok]), if_neg (by simp [hok])]
  have hloop := createDenyLoop_ok env
    (applyCall p (.patchParental (createParentalPayload req))).denylist hok
    (normalizeDomains req.domains)
    (applyCall p (.patchParental (createParentalPayload req)))
  rw [hloop]
  rfl

theorem applyRollback_ok (env : RemoteEnv) (hok : ∀ c, env.fails c = false)
    (p : Profile) (rb : RollbackPlan) :
    applyRollback env p rb =
      { calls := .patchParental (rollbackParentalPayload rb) :: rb.denylist.map rollbackDenyCall
        profile := applyCalls (applyCall p (.patchParental (rollbackParentalPayload rb)))
          (rb.denylist.map rollbackDenyCall)
        error := none } := by
  unfold applyRollback
  rw [if_neg (by simp [hok])]
  rw [applyRollbackDeny_ok env rb.denylist (fun i _ => hok _)]

theorem denyCallFor_domain (snapshot : List DenyEntry) (d : String) (c : RemoteCall)
    (h : denyCallFor snapshot d = some c) : c.denyDomain = some d := by
  unfold denyCallFor at h
  cases hl : denyLookup snapshot d with
  | some e =>
    rw [hl] at h
    cases ha : e.active with
    | true => simp [ha] at h
    | false =>
      simp [ha] at h
      subst h
      rfl
  | none =>
    rw [hl] at h
    simp at h
    subst h
    rfl

/-- C7: for every session-store state and clock time, the active-session
list of the state query contains exactly the sessions whose status is
`active` (never `rolling_back` or `rollback_failed` ones, and removed
sessions are no longer in the store), each annotated with
`remaining_seconds = max 0 (expires_at - now)`, and the list is sorted by
ascending expiry time. -/
theorem focusSessionsView_spec (sessions : List Session) (now : Int) :
    (∀ v, v ∈ focusSessionsView sessions now ↔
      ∃ s ∈ sessions, s.status = SessionStatus.active ∧ v = sessionView now s) ∧
    List.Sorted viewLe (focusSessionsView sessions now) ∧
    (∀ v ∈ focusSessionsView sessions now, v.remaining_seconds = max 0 (v.expires_at - now)) := by
  refine ⟨?_, ?_, ?_⟩
  · intro v
    unfold focusSessionsView
    rw [List.mem_insertionSort, List.mem_map]
    constructor
    · rintro ⟨s, hs, rfl⟩
      rw [List.mem_filter] at hs
      exact ⟨s, hs.1, by simpa using hs.2, rfl⟩
    · rintro ⟨s, hs, hstat, rfl⟩
      exact ⟨s, List.mem_filter.mpr ⟨hs, by simp [hstat]⟩, rfl⟩
  · exact List.sorted_insertionSort viewLe _
  · intro v hv
    unfold focusSessionsView at hv
    rw [List.mem_insertionSort, List.mem_map] at hv
    rcases hv with ⟨s, _, rfl⟩
    rfl

/-- C9: when a profile refresh attempt fails, the previously cached
profile value is preserved unchanged, the error raised by the single fetch
attempt is surfaced to the caller as-is, and at most one fetch attempt is
made (no automatic retry). -/
theorem ensureProfileLoaded_error_preserves_cache (env : FetchEnv) (st : CacheState)
    (force : Bool) :
    (ensureProfileLoaded env st force).2 ≤ 1 ∧
    (∀ e, (ensureProfileLoaded env st force).1.result = .error e →
      (ensureProfileLoaded env st force).1.state.profile = st.profile ∧
      (fetchProfile env st).result = .error e) := by
  have hfetch : ∀ e, (fetchProfile env st).result = .error e →
      (fetchProfile env st).state.profile = st.profile := by
    intro e he
    unfold fetchProfile at he ⊢
    cases hp : env.profilesResult with
    | error msg => rfl
    | ok ids =>
      cases ids with
      | nil => rfl
      | cons pid rest =>
        cases hq : env.profileResult pid with
        | error msg => simp [hq]
        | ok doc =>
          rw [hp] at he
          simp [hq] at he
  unfold ensureProfileLoaded
  cases hpr : st.profile with
  | none =>
    exact ⟨by simp, fun e he => ⟨(hfetch e he).trans hpr, he⟩⟩
  | some cached =>
    cases hpu : st.profile_url with
    | none =>
      exact ⟨by simp, fun e he => ⟨(hfetch e he).trans hpr, he⟩⟩
    | some u =>
      cases force with
      | true => exact ⟨by simp, fun e he => ⟨(hfetch e he).trans hpr, he⟩⟩
      | false =>
        refine ⟨by simp, fun e he => ?_⟩
        simp at he

/-- C10: every snapshot returned by a successful `create_focus_session`
call has `created_at` equal to the single `datetime.now` sample taken
after all remote mutations succeeded, `expires_at` exactly
`duration_minutes` minutes later, the request's duration echoed, and
status `active`. -/
theorem createFocusSession_snapshot_times (env : RemoteEnv) (req : FocusRequest) (p : Profile)
    (now : Int) (sid : String) (snap : SessionSnapshot)
    (h : (createFocusSession env req p now sid).outcome = .ok snap) :
    snap.created_at = now ∧
    snap.expires_at = snap.created_at + 60 * snap.duration_minutes ∧
    snap.duration_minutes = req.duration_minutes ∧
    snap.status = SessionStatus.active := by
  simp only [createFocusSession] at h
  by_cases h1 : req.duration_minutes < 5 ∨ req.duration_minutes > 1440
  · rw [if_pos h1] at h
    simp at h
  rw [if_neg h1] at h
  by_cases h2 : env.fails (RemoteCall.fetchProfile 0) = true
  · rw [if_pos h2] at h
    simp at h
  rw [if_neg h2] at h
  by_cases h3 : unknownCategories p req ≠ []
  · rw [if_pos h3] at h
    simp at h
  rw [if_neg h3] at h
  by_cases h4 : unknownServices p req ≠ []
  · rw [if_pos h4] at h
    simp at h
  rw [if_neg h4] at h
  simp only [createApply] at h
  by_cases h5 : env.fails (RemoteCall.patchParental (createParentalPayload req)) = true
  · rw [if_pos h5] at h
    simp [createFail] at h
  rw [if_neg h5] at h
  by_cases h6 : env.fails (RemoteCall.fetchProfile 1) = true
  · rw [if_pos h6] at h
    simp [createFail] at h
  rw [if_neg h6] at h
  rcases hloop : createDenyLoop env
      (applyCall p (RemoteCall.patchParental (createParentalPayload req))).denylist
      (applyCall p (RemoteCall.patchParental (createParentalPayload req)))
      (normalizeDomains req.domains) with ⟨items, dcalls, p2, err⟩
  rw [hloop] at h
  cases err with
  | some e => simp [createFail] at h
  | none =>
    have hsnap : ({ session_id := sid
                    status := SessionStatus.active
                    created_at := now
                    expires_at := now + 60 * req.duration_minutes
                    duration_minutes := req.duration_minutes
                    targets := sessionTargets req } : SessionSnapshot) = snap :=
      Except.ok.inj h
    rw [← hsnap]
    exact ⟨rfl, rfl, rfl, rfl⟩

/-- Witness for C9 at a concrete failing fetch environment: the cached
profile survives, the fetch error is surfaced, and one attempt was made. -/
theorem ensureProfileLoaded_error_preserves_cache_witness :
    (ensureProfileLoaded c9Env c9State true).1.state.profile = c9State.profile ∧
    (fetchProfile c9Env c9State).result = Except.error "profiles endpoint down" ∧
    (ensureProfileLoaded c9Env c9State true).2 ≤ 1 := by
  have h := ensureProfileLoaded_error_preserves_cache c9Env c9State true
  have h2 := h.2 "profiles endpoint down" (by decide)
  exact ⟨h2.1, h2.2, h.1⟩

/-- Witness for C10 at a concrete successful creation. -/
theorem createFocusSession_snapshot_times_witness :
    c10Snap.created_at = 100 ∧
    c10Snap.expires_at = c10Snap.created_at + 60 * c10Snap.duration_minutes ∧
    c10Snap.duration_minutes = c6Req.duration_minutes ∧
    c10Snap.status = SessionStatus.active :=
  createFocusSession_snapshot_times envAllOk c6Req c6Prof 100 "sid" c10Snap (by decide)

/-- C8 counterexample: the request whose only domain is `"."` (empty
after normalization) does not fail with a `ValidationError` — the session
is created successfully and no deny-list call is ever issued for it. -/
theorem createFocusSession_empty_domain_no_error :
    (createFocusSession envAllOk c8Req c8Prof 0 "sid").outcome =
      Except.ok
        { session_id := "sid"
          status := .active
          created_at := 0
          expires_at := 1800
          duration_minutes := 30
          targets := sessionTargets c8Req } ∧
    ((createFocusSession envAllOk c8Req c8Prof 0 "sid").calls.filter
      fun c => (RemoteCall.denyDomain c).isSome) = [] := by decide

/-- C8 (amended): a domain that is empty after normalization is silently
dropped from the target set during normalization — the normalized list
never contains the empty domain, and removing all empty-normalizing
domains from the request leaves the computed target set unchanged (so such
domains trigger no remote mutation and no error). -/
theorem normalizeDomains_drops_empty (ds : List String) :
    "" ∉ normalizeDomains ds ∧
    normalizeDomains (ds.filter fun d => !(normalizeDomain d == "")) = normalizeDomains ds := by
  refine ⟨empty_not_mem_normalizeDomains ds, ?_⟩
  unfold normalizeDomains
  congr 1
  apply filterMap_filter_of_none
  intro x hx
  simp only [Bool.not_eq_false'] at hx
  have hx' : normalizeDomain x = "" := by simpa using hx
  simp [hx']

/-- C5: when the request names a category or service id absent from the
current profile, `create_focus_session` raises a `ValidationError` whose
message lists the offending ids, registers no session, and the remote
client receives zero mutation calls (only the read-only refresh happened). -/
theorem createFocusSession_unknown_id_validation (env : RemoteEnv) (req : FocusRequest)
    (p : Profile) (now : Int) (sid : String)
    (hd : ¬(req.duration_minutes < 5 ∨ req.duration_minutes > 1440))
    (hf0 : env.fails (RemoteCall.fetchProfile 0) = false)
    (hunk : (∃ i ∈ req.category_ids, (pcLookup p.parentalControl.categories i).isNone = true) ∨
            (∃ i ∈ req.service_ids, (pcLookup p.parentalControl.services i).isNone = true)) :
    ((createFocusSession env req p now sid).calls.filter RemoteCall.isMutation = []) ∧
    (createFocusSession env req p now sid).registered = none ∧
    ((createFocusSession env req p now sid).outcome =
        Except.error (.validation
          ("Unknown categories: " ++ String.intercalate ", " (unknownCategories p req))) ∨
     (createFocusSession env req p now sid).outcome =
        Except.error (.validation
          ("Unknown services: " ++ String.intercalate ", " (unknownServices p req)))) := by
  simp only [createFocusSession]
  rw [if_neg hd, if_neg (by simp [hf0])]
  by_cases hc : unknownCategories p req ≠ []
  · rw [if_pos hc]
    exact ⟨rfl, rfl, Or.inl rfl⟩
  · rw [if_neg hc]
    have hs : unknownServices p req ≠ [] := by
      rcases hunk with ⟨i, hi, hnone⟩ | ⟨i, hi, hnone⟩
      · exfalso
        have hmem : i ∈ unknownCategories p req := by
          unfold unknownCategories requestedCategories
          exact List.mem_filter.mpr ⟨mem_sortedDedup.mpr hi, by simp [hnone]⟩
        rw [not_not] at hc
        rw [hc] at hmem
        cases hmem
      · apply List.ne_nil_of_mem
        show i ∈ unknownServices p req
        unfold unknownServices requestedServices
        exact List.mem_filter.mpr ⟨mem_sortedDedup.mpr hi, by simp [hnone]⟩
    rw [if_pos hs]
    exact ⟨rfl, rfl, Or.inr rfl⟩

/-- Witness for C5 at a concrete unknown category id. -/
theorem createFocusSession_unknown_id_validation_witness :
    ((createFocusSession envAllOk c5Req c5Prof 0 "sid").calls.filter RemoteCall.isMutation = []) ∧
    (createFocusSession envAllOk c5Req c5Prof 0 "sid").registered = none ∧
    ((createFocusSession envAllOk c5Req c5Prof 0 "sid").outcome =
        Except.error (.validation
          ("Unknown categories: " ++ String.intercalate ", " (unknownCategories c5Prof c5Req))) ∨
     (createFocusSession envAllOk c5Req c5Prof 0 "sid").outcome =
        Except.error (.validation
          ("Unknown services: " ++ String.intercalate ", " (unknownServices c5Prof c5Req)))) :=
  createFocusSession_unknown_id_validation envAllOk c5Req c5Prof 0 "sid"
    (by decide) (by decide) (Or.inl (by decide))

/-- C2 counterexample: with a rollback plan holding two deny-list items
whose restoration is a DELETE each, and a remote that rejects the first
DELETE, `_apply_rollback` raises at the first item: the second item's call
is never attempted and its deny-list entry stays un-restored, refuting
"attempts every item / failures are collected". -/
theorem applyRollback_no_item_collection :
    (applyRollback c2Env c2Prof c2Plan).error.isSome = true ∧
    RemoteCall.deleteDeny "a.com" ∈ (applyRollback c2Env c2Prof c2Plan).calls ∧
    RemoteCall.deleteDeny "b.com" ∉ (applyRollback c2Env c2Prof c2Plan).calls ∧
    (applyRollback c2Env c2Prof c2Plan).profile.denylist = c2Prof.denylist := by decide

/-- C2 (amended): `_apply_rollback` walks the deny-list items strictly in
order and stops at the first item whose remote call fails: it attempts
exactly the parental patch, the calls of the items before the failing one,
and the failing item's call — later items are not attempted, the first
failure is the reported error (so the caller marks the session
`rollback_failed`), and the items before the failure remain applied. -/
theorem applyRollback_stops_at_first_failure (env : RemoteEnv) (p : Profile) (rb : RollbackPlan)
    (pre : List DenyRbItem) (item : DenyRbItem) (post : List DenyRbItem)
    (hsplit : rb.denylist = pre ++ item :: post)
    (hpre : ∀ i ∈ pre, env.fails (rollbackDenyCall i) = false)
    (hfail : env.fails (rollbackDenyCall item) = true)
    (hpc : env.fails (.patchParental (rollbackParentalPayload rb)) = false) :
    (applyRollback env p rb).calls =
      .patchParental (rollbackParentalPayload rb) ::
        (pre.map rollbackDenyCall ++ [rollbackDenyCall item]) ∧
    (applyRollback env p rb).error = some (env.errMsg (rollbackDenyCall item)) ∧
    (applyRollback env p rb).profile =
      applyCalls (applyCall p (.patchParental (rollbackParentalPayload rb)))
        (pre.map rollbackDenyCall) := by
  unfold applyRollback
  rw [if_neg (by simp [hpc]), hsplit, applyRollbackDeny_fail env pre item post hpre hfail]
  exact ⟨rfl, rfl, rfl⟩

/-- Witness for the amended C2 at the concrete two-item plan. -/
theorem applyRollback_stops_at_first_failure_witness :
    (applyRollback c2Env c2Prof c2Plan).calls =
      .patchParental (rollbackParentalPayload c2Plan) ::
        (([] : List DenyRbItem).map rollbackDenyCall ++
          [rollbackDenyCall ⟨"a.com", false, false⟩]) ∧
    (applyRollback c2Env c2Prof c2Plan).error =
      some (c2Env.errMsg (rollbackDenyCall ⟨"a.com", false, false⟩)) ∧
    (applyRollback c2Env c2Prof c2Plan).profile =
      applyCalls (applyCall c2Prof (.patchParental (rollbackParentalPayload c2Plan)))
        (([] : List DenyRbItem).map rollbackDenyCall) :=
  applyRollback_stops_at_first_failure c2Env c2Prof c2Plan
    [] ⟨"a.com", false, false⟩ [⟨"b.com", false, false⟩]
    rfl (by intro i hi; cases hi) (by decide) (by decide)

/-- C1 (amended): whenever a remote operation of steps 6-8 fails after
validation passed, `create_focus_session` invokes `_apply_rollback` with
the rollback plan accumulated so far (the captured scalar flags and
category/service snapshots, plus whatever deny-list items were recorded),
fails with a `RuntimeError` wrapping the original failure — a failure of
the rollback attempt itself is swallowed (`except Exception: pass`) and
not reported — and registers no session. -/
theorem createFocusSession_failure_rolls_back (env : RemoteEnv) (req : FocusRequest)
    (p : Profile) (now : Int) (sid : String)
    (hd : ¬(req.duration_minutes < 5 ∨ req.duration_minutes > 1440))
    (hf0 : env.fails (RemoteCall.fetchProfile 0) = false)
    (hc : unknownCategories p req = [])
    (hs : unknownServices p req = [])
    (hfail : env.fails (RemoteCall.patchParental (createParentalPayload req)) = true ∨
             env.fails (RemoteCall.fetchProfile 1) = true ∨
             (createDenyLoop env
               (applyCall p (RemoteCall.patchParental (createParentalPayload req))).denylist
               (applyCall p (RemoteCall.patchParental (createParentalPayload req)))
               (normalizeDomains req.domains)).2.2.2.isSome = true) :
    (∃ m, (createFocusSession env req p now sid).outcome =
        Except.error (.remote ("Failed to create focus session: " ++ m))) ∧
    (createFocusSession env req p now sid).registered = none ∧
    (∃ rb, (createFocusSession env req p now sid).rollbackInvoked = some rb ∧
      rb.parentalControl = p.parentalControl.flags ∧
      rb.categories = (initialRollback p req).categories ∧
      rb.services = (initialRollback p req).services) := by
  rw [createFocusSession_validated env req p now sid hd hf0 hc hs]
  simp only [createApply]
  by_cases h5 : env.fails (RemoteCall.patchParental (createParentalPayload req)) = true
  · rw [if_pos h5]
    exact ⟨⟨_, rfl⟩, rfl, ⟨_, rfl, rfl, rfl, rfl⟩⟩
  · rw [if_neg h5]
    by_cases h6 : env.fails (RemoteCall.fetchProfile 1) = true
    · rw [if_pos h6]
      exact ⟨⟨_, rfl⟩, rfl, ⟨_, rfl, rfl, rfl, rfl⟩⟩
    · rw [if_neg h6]
      rcases hloop : createDenyLoop env
          (applyCall p (RemoteCall.patchParental (createParentalPayload req))).denylist
          (applyCall p (RemoteCall.patchParental (createParentalPayload req)))
          (normalizeDomains req.domains) with ⟨items, dcalls, p2, err⟩
      cases err with
      | some e => exact ⟨⟨_, rfl⟩, rfl, ⟨_, rfl, rfl, rfl, rfl⟩⟩
      | none =>
        exfalso
        rcases hfail with h | h | h
        · exact h5 h
        · exact h6 h
        · rw [hloop] at h
          simp at h

/-- Witness for the amended C1: the POST for `foo.com` fails, the
accumulated plan (scalars plus the one deny item) is rolled back, and the
wrapped error is returned with no session registered. -/
theorem createFocusSession_failure_rolls_back_witness :
    (∃ m, (createFocusSession c1Env1 c1Req c1Prof 0 "sid").outcome =
        Except.error (.remote ("Failed to create focus session: " ++ m))) ∧
    (createFocusSession c1Env1 c1Req c1Prof 0 "sid").registered = none ∧
    (∃ rb, (createFocusSession c1Env1 c1Req c1Prof 0 "sid").rollbackInvoked = some rb ∧
      rb.parentalControl = c1Prof.parentalControl.flags ∧
      rb.categories = (initialRollback c1Prof c1Req).categories ∧
      rb.services = (initialRollback c1Prof c1Req).services) :=
  createFocusSession_failure_rolls_back c1Env1 c1Req c1Prof 0 "sid"
    (by decide) (by decide) (by decide) (by decide) (Or.inr (Or.inr (by decide)))

/-- C1 counterexample: in the `foo.com` scenario the outcome of
`create_focus_session` is the same whether or not the rollback attempt
itself fails — under `c1Env2` the parental-control patch rebuilt by
`_apply_rollback` from the accumulated plan is rejected (so the rollback
attempt failed), yet the returned error is identical to the one under
`c1Env1` where rollback succeeded, so the error cannot describe the
rollback failure. -/
theorem createFocusSession_error_hides_rollback_failure :
    (createFocusSession c1Env2 c1Req c1Prof 0 "sid").outcome =
      (createFocusSession c1Env1 c1Req c1Prof 0 "sid").outcome ∧
    (createFocusSession c1Env1 c1Req c1Prof 0 "sid").outcome =
      Except.error (.remote "Failed to create focus session: postfail") ∧
    (createFocusSession c1Env2 c1Req c1Prof 0 "sid").rollbackInvoked = some c1Plan ∧
    c1Env2.fails (.patchParental (rollbackParentalPayload c1Plan)) = true ∧
    c1Env1.fails (.patchParental (rollbackParentalPayload c1Plan)) = false := by decide

/-- C4: after a manual rollback has run for a session (whatever its
outcome), letting the natural expiry task fire for the same session id
issues zero remote calls and is an error-free no-op: the expiry path
re-checks the session's status under the lock and returns immediately
because the session is either removed from the store or no longer
`active`. -/
theorem manual_rollback_then_expiry_noop (env envE : RemoteEnv) (st : FocusStore)
    (p pE : Profile) (sid : String)
    (hnd : (st.sessions.map Prod.fst).Nodup) :
    (expireFocusSession envE (rollbackFocusSession env st p sid).store pE sid).calls = [] ∧
    (expireFocusSession envE (rollbackFocusSession env st p sid).store pE sid).store =
      (rollbackFocusSession env st p sid).store ∧
    (expireFocusSession envE (rollbackFocusSession env st p sid).store pE sid).remote = pE := by
  unfold rollbackFocusSession
  cases hfind : storeLookup st sid with
  | none =>
    dsimp only
    unfold expireFocusSession
    rw [hfind]
    exact ⟨rfl, rfl, rfl⟩
  | some s =>
    dsimp only
    by_cases hstat : s.status = SessionStatus.active
    · rw [if_neg (by simp [hstat])]
      cases herr : (applyRollback env p s.rollback).error with
      | some e =>
        dsimp only
        have hlook :
            storeLookup
              { sessions := updateFirst
                  (updateFirst st.sessions sid fun t => { t with status := .rolling_back })
                  sid fun t => { t with status := .rollback_failed, error := some e }
                tasks := st.tasks.erase sid } sid =
              some { s with status := .rollback_failed, error := some e } := by
          unfold storeLookup at hfind ⊢
          rw [find?_updateFirst, find?_updateFirst]
          rcases hkv : st.sessions.find? fun kv => kv.1 == sid with _ | kv
          · rw [hkv] at hfind
            simp at hfind
          · rw [hkv] at hfind
            simp at hfind
            rw [hkv]
            simp [hfind]
        unfold expireFocusSession rollbackFocusSession
        rw [hlook]
        dsimp only
        rw [if_pos (by decide)]
        exact ⟨rfl, rfl, rfl⟩
      | none =>
        dsimp only
        have hlook :
            storeLookup
              { sessions := (updateFirst st.sessions sid fun t =>
                  { t with status := .rolling_back }).eraseP fun kv => kv.1 == sid
                tasks := st.tasks.erase sid } sid = none := by
          unfold storeLookup
          rw [find?_eraseP_key]
          · rfl
          · rw [map_fst_updateFirst]
            exact hnd
        unfold expireFocusSession
        rw [hlook]
        exact ⟨rfl, rfl, rfl⟩
    · rw [if_pos (by simp [hstat])]
      unfold expireFocusSession rollbackFocusSession
      rw [hfind]
      dsimp only
      rw [if_pos (by simp [hstat])]
      exact ⟨rfl, rfl, rfl⟩

/-- Witness for C4 at a concrete one-session store. -/
theorem manual_rollback_then_expiry_noop_witness :
    (expireFocusSession envAllOk (rollbackFocusSession envAllOk c4Store c8Prof "s1").store
      c8Prof "s1").calls = [] ∧
    (expireFocusSession envAllOk (rollbackFocusSession envAllOk c4Store c8Prof "s1").store
      c8Prof "s1").store = (rollbackFocusSession envAllOk c4Store c8Prof "s1").store ∧
    (expireFocusSession envAllOk (rollbackFocusSession envAllOk c4Store c8Prof "s1").store
      c8Prof "s1").remote = c8Prof :=
  manual_rollback_then_expiry_noop envAllOk envAllOk c4Store c8Prof c8Prof "s1" (by decide)

/-- C6: in a successful `create_focus_session` run, every normalized
target domain is handled per the deny-list snapshot: a pre-existing domain
has its prior `active` flag recorded in the rollback plan and is PATCHed
to active only when it was inactive (no deny-list call at all touches it
when it was already active); a missing domain is recorded as
"did not exist" and POSTed with `active = true`. -/
theorem createFocusSession_per_domain (env : RemoteEnv) (req : FocusRequest) (p : Profile)
    (now : Int) (sid : String)
    (hok : ∀ c, env.fails c = false)
    (hd : ¬(req.duration_minutes < 5 ∨ req.duration_minutes > 1440))
    (hc : unknownCategories p req = [])
    (hs : unknownServices p req = [])
    (d : String) (hmem : d ∈ normalizeDomains req.domains) :
    ∀ s, (createFocusSession env req p now sid).registered = some s →
      match denyLookup p.denylist d with
      | some e =>
          (⟨d, true, e.active⟩ : DenyRbItem) ∈ s.rollback.denylist ∧
          (e.active = false →
            RemoteCall.patchDeny d true ∈ (createFocusSession env req p now sid).calls) ∧
          (e.active = true → ∀ c ∈ (createFocusSession env req p now sid).calls,
            RemoteCall.denyDomain c ≠ some d)
      | none =>
          (⟨d, false, false⟩ : DenyRbItem) ∈ s.rollback.denylist ∧
          RemoteCall.postDeny d true ∈ (createFocusSession env req p now sid).calls := by
  intro s hreg
  rw [createFocusSession_ok env req p now sid hok hd hc hs] at hreg ⊢
  have hsX := (Option.some.inj hreg).symm
  subst hsX
  dsimp only
  cases hl : denyLookup p.denylist d with
  | some e =>
    refine ⟨?_, ?_, ?_⟩
    · have hrec : denyRecord p.denylist d = ⟨d, true, e.active⟩ := by
        simp [denyRecord, hl]
      rw [← hrec]
      exact List.mem_map_of_mem _ hmem
    · intro hfalse
      have hcall : denyCallFor p.denylist d = some (RemoteCall.patchDeny d true) := by
        simp [denyCallFor, hl, hfalse]
      apply List.mem_append.mpr
      right
      exact List.mem_filterMap.mpr ⟨d, hmem, hcall⟩
    · intro htrue c hcmem hdom
      rcases List.mem_append.mp hcmem with h3 | hdc
      · simp at h3
        rcases h3 with rfl | rfl | rfl <;> simp [RemoteCall.denyDomain] at hdom
      · rcases List.mem_filterMap.mp hdc with ⟨d', hd', hcall'⟩
        have hdom' := denyCallFor_domain _ _ _ hcall'
        rw [hdom'] at hdom
        have hdd : d' = d := Option.some.inj hdom
        subst hdd
        rw [show denyCallFor p.denylist d' = none from by simp [denyCallFor, hl, htrue]] at hcall'
        cases hcall'
  | none =>
    constructor
    · have hrec : denyRecord p.denylist d = ⟨d, false, false⟩ := by
        simp [denyRecord, hl]
      rw [← hrec]
      exact List.mem_map_of_mem _ hmem
    · have hcall : denyCallFor p.denylist d = some (RemoteCall.postDeny d true) := by
        simp [denyCallFor, hl]
      apply List.mem_append.mpr
      right
      exact List.mem_filterMap.mpr ⟨d, hmem, hcall⟩

/-- Witness for C6: `bar.com` pre-exists inactive in the profile, so its
prior flag is recorded and it is PATCHed to active. -/
theorem createFocusSession_per_domain_witness :
    (⟨"bar.com", true, false⟩ : DenyRbItem) ∈ c6Session.rollback.denylist ∧
    RemoteCall.patchDeny "bar.com" true ∈ (createFocusSession envAllOk c6Req c6Prof 100 "sid").calls := by
  have h := createFocusSession_per_domain envAllOk c6Req c6Prof 100 "sid"
    (fun _ => rfl) (by decide) (by decide) (by decide) "bar.com" (by decide) c6Session (by decide)
  exact ⟨h.1, h.2.1 rfl⟩

/-- C3: for every profile whose deny-list entries carry normalized, unique
ids, creating a session targeting `"Example.com."` and then applying its
rollback plan restores the deny-list to its exact pre-session state: the
entry is deleted again if it was absent, and PATCHed back to its original
`active` value if it pre-existed. -/
theorem roundTrip_denylist (p : Profile) (now : Int) (sid : String)
    (hids : ∀ e ∈ p.denylist, normalizeDomain e.id = e.id)
    (hnd : (p.denylist.map DenyEntry.id).Nodup) :
    ∀ s, (createFocusSession envAllOk roundTripRequest p now sid).registered = some s →
      (applyRollback envAllOk (createFocusSession envAllOk roundTripRequest p now sid).remote
        s.rollback).profile.denylist = p.denylist := by
  intro s hreg
  have hok : ∀ c, envAllOk.fails c = false := fun _ => rfl
  rw [createFocusSession_ok envAllOk roundTripRequest p now sid hok (by decide) rfl rfl]
    at hreg ⊢
  have hnorm : normalizeDomains roundTripRequest.domains = ["example.com"] := by decide
  rw [hnorm] at hreg ⊢
  have hsX := (Option.some.inj hreg).symm
  subst hsX
  dsimp only
  cases hl : denyLookup p.denylist "example.com" with
  | some e =>
    have hefilter : e ∈ p.denylist.filter
        fun x => !(x.id == "") && (normalizeDomain x.id == "example.com") := by
      unfold denyLookup at hl
      exact List.mem_of_mem_getLast? hl
    have he_mem : e ∈ p.denylist := (List.mem_filter.mp hefilter).1
    have hprop := (List.mem_filter.mp hefilter).2
    have hnorm_e : normalizeDomain e.id = "example.com" := by
      simp at hprop
      exact hprop.2
    have heid : e.id = "example.com" := (hids e he_mem).symm.trans hnorm_e
    have huniq : ∀ x ∈ p.denylist, x.id = "example.com" → x = e := by
      intro x hx hxid
      exact List.inj_on_of_nodup_map hnd hx he_mem (hxid.trans heid.symm)
    cases hact : e.active with
    | true =>
      have hrec : (["example.com"] : List String).map (denyRecord p.denylist) =
          [⟨"example.com", true, true⟩] := by
        simp [denyRecord, hl, hact]
      have hfm : (["example.com"] : List String).filterMap (denyCallFor p.denylist) = [] := by
        simp [denyCallFor, hl, hact]
      rw [hrec, hfm, applyRollback_ok envAllOk hok]
      show (p.denylist.map
          fun x => if x.id == "example.com" then { x with active := true } else x) = p.denylist
      exact patchList_nochange p.denylist "example.com" true
        fun x hx hxid => by rw [huniq x hx hxid, hact]
    | false =>
      have hrec : (["example.com"] : List String).map (denyRecord p.denylist) =
          [⟨"example.com", true, false⟩] := by
        simp [denyRecord, hl, hact]
      have hfm : (["example.com"] : List String).filterMap (denyCallFor p.denylist) =
          [RemoteCall.patchDeny "example.com" true] := by
        simp [denyCallFor, hl, hact]
      rw [hrec, hfm, applyRollback_ok envAllOk hok]
      show ((p.denylist.map
          fun x => if x.id == "example.com" then { x with active := true } else x).map
          fun x => if x.id == "example.com" then { x with active := false } else x) = p.denylist
      rw [patchList_patchList]
      exact patchList_nochange p.denylist "example.com" false
        fun x hx hxid => by rw [huniq x hx hxid, hact]
  | none =>
    have hno : ∀ x ∈ p.denylist, ¬ x.id = "example.com" := by
      intro x hx hxid
      unfold denyLookup at hl
      rw [List.getLast?_eq_none_iff] at hl
      have hxf : x ∈ p.denylist.filter
          fun y => !(y.id == "") && (normalizeDomain y.id == "example.com") := by
        apply List.mem_filter.mpr
        refine ⟨hx, ?_⟩
        show (!(x.id == "") && (normalizeDomain x.id == "example.com")) = true
        rw [hxid]
        decide
      rw [hl] at hxf
      cases hxf
    have hrec : (["example.com"] : List String).map (denyRecord p.denylist) =
        [⟨"example.com", false, false⟩] := by
      simp [denyRecord, hl]
    have hfm : (["example.com"] : List String).filterMap (denyCallFor p.denylist) =
        [RemoteCall.postDeny "example.com" true] := by
      simp [denyCallFor, hl]
    rw [hrec, hfm, applyRollback_ok envAllOk hok]
    show ((p.denylist ++ [DenyEntry.mk "example.com" true]).filter
        fun x => !(x.id == "example.com")) = p.denylist
    exact filter_append_single_ne p.denylist "example.com" true hno

/-- Witness for C3: `example.com` pre-exists inactive, so the round trip
PATCHes it to active and then back to inactive, leaving the deny-list
exactly as before. -/
theorem roundTrip_denylist_witness :
    (createFocusSession envAllOk roundTripRequest c3Profile 0 "sid").registered =
      some { id := "sid"
             status := .active
             created_at := 0
             expires_at := 1800
             duration_minutes := 30
             reason := none
             targets := sessionTargets roundTripRequest
             rollback := { parentalControl := ⟨false, false, false⟩
                           categories := []
                           services := []
                           denylist := [⟨"example.com", true, false⟩] }
             error := none } ∧
    (applyRollback envAllOk (createFocusSession envAllOk roundTripRequest c3Profile 0 "sid").remote
      { parentalControl := ⟨false, false, false⟩
        categories := []
        services := []
        denylist := [⟨"example.com", true, false⟩] }).profile.denylist = c3Profile.denylist := by
  constructor
  · decide
  · exact roundTrip_denylist c3Profile 0 "sid" (by decide) (by decide)
      { id := "sid"
        status := .active
        created_at := 0
        expires_at := 1800
        duration_minutes := 30
        reason := none
        targets := sessionTargets roundTripRequest
        rollback := { parentalControl := ⟨false, false, false⟩
                      categories := []
                      services := []
                      denylist := [⟨"example.com", true, false⟩] }
        error := none } (by decide)

/-- Witness for C7 at a concrete one-session store. -/
theorem focusSessionsView_spec_witness :
    (sessionView 100 c4Session ∈ focusSessionsView [c4Session] 100) ∧
    List.Sorted viewLe (focusSessionsView [c4Session] 100) ∧
    (sessionView 100 c4Session).remaining_seconds =
      max 0 ((sessionView 100 c4Session).expires_at - 100) := by
  have h := focusSessionsView_spec [c4Session] 100
  refine ⟨?_, h.2.1, ?_⟩
  · exact (h.1 (sessionView 100 c4Session)).mpr ⟨c4Session, by simp, rfl, rfl⟩
  · exact h.2.2 _ ((h.1 _).mpr ⟨c4Session, by simp, rfl, rfl⟩)

/-- Witness for the amended C8 at a concrete domain list. -/
theorem normalizeDomains_drops_empty_witness :
    "" ∉ normalizeDomains [" . ", "Foo.com"] ∧
    normalizeDomains ([" . ", "Foo.com"].filter fun d => !(normalizeDomain d == "")) =
      normalizeDomains [" . ", "Foo.com"] :=
  normalizeDomains_drops_empty [" . ", "Foo.com"]
